import Mathlib

/-!
Verification of the request-handling core of the `proxy_interceptor` package
(`proxy_server.py` and `models.py`).

The embedding models:
* JSON values (`Json`) with a `json.loads`-style parser (`parseJson`) and
  `json.dumps`-style serializers (`dumpsCompact`, `dumpsIndent`).  Numbers are
  modelled as integers only; inputs with floating-point literals are outside
  the model.
* the intercepted-exchange records (`HttpRequest`, `HttpResponse`,
  `InterceptedRequest`),
* the `/v1/chat/completions` handler (`chatCompletions`) with its per-attempt
  classification (`attemptOne`) and retry loop (`runGo`), and
* the SSE streaming capture generator (`streamChunk`, `streamFinalize`,
  `streamRun`).

Upstream behaviour is an oracle `Nat → UpstreamResult` giving the outcome of
the i-th upstream call of a request; wall-clock instants are abstract `Nat`
millisecond values supplied as parameters.
-/

namespace OpenRouterProxy

/-- JSON values as produced by Python's `json.loads`: dicts are ordered
association lists, numbers are modelled as integers. -/
inductive Json where
  | null
  | bool (b : Bool)
  | num (n : Int)
  | str (s : String)
  | arr (elems : List Json)
  | obj (members : List (String × Json))

/-- Skip JSON whitespace, as `json.loads` does between tokens. -/
def skipWs : List Char → List Char
  | [] => []
  | c :: cs =>
    if c = ' ' ∨ c = '\t' ∨ c = '\n' ∨ c = '\r' then skipWs cs else c :: cs

/-- Parse the remainder of a JSON string literal (after the opening quote),
supporting the escape sequences used by the repository's payloads. -/
def pStringAux : List Char → List Char → Option (String × List Char)
  | _, [] => none
  | acc, '"' :: cs => some (String.mk acc.reverse, cs)
  | acc, '\\' :: '"' :: cs => pStringAux ('"' :: acc) cs
  | acc, '\\' :: '\\' :: cs => pStringAux ('\\' :: acc) cs
  | acc, '\\' :: '/' :: cs => pStringAux ('/' :: acc) cs
  | acc, '\\' :: 'n' :: cs => pStringAux ('\n' :: acc) cs
  | acc, '\\' :: 't' :: cs => pStringAux ('\t' :: acc) cs
  | acc, '\\' :: 'r' :: cs => pStringAux ('\r' :: acc) cs
  | _, '\\' :: _ => none
  | acc, c :: cs =>
    if c.toNat < 32 then none else pStringAux (c :: acc) cs

/-- Collect a run of decimal digits. -/
def pDigits (acc : List Char) : List Char → (List Char × List Char)
  | [] => (acc.reverse, [])
  | c :: cs => if c.isDigit then pDigits (c :: acc) cs else (acc.reverse, c :: cs)

/-- Digits to a natural number. -/
def digitsToNat (ds : List Char) : Nat :=
  ds.foldl (fun a c => a * 10 + (c.toNat - 48)) 0

/-- Does the rest of the input continue a floating-point literal?  Floats are
outside the model, so the parser rejects them. -/
def floatFollows : List Char → Bool
  | '.' :: _ => true
  | 'e' :: _ => true
  | 'E' :: _ => true
  | _ => false

/-- A multi-digit run with a leading zero, which JSON rejects. -/
def leadingZero : List Char → Bool
  | '0' :: _ :: _ => true
  | _ => false

/-- Parse an integer literal. -/
def pNumber : List Char → Option (Json × List Char)
  | '-' :: cs =>
    match pDigits [] cs with
    | ([], _) => none
    | (ds, rest) =>
      if floatFollows rest ∨ leadingZero ds then none
      else some (.num (-(digitsToNat ds : Int)), rest)
  | cs =>
    match pDigits [] cs with
    | ([], _) => none
    | (ds, rest) =>
      if floatFollows rest ∨ leadingZero ds then none
      else some (.num (digitsToNat ds), rest)

mutual

/-- Parse one JSON value (fuelled recursive-descent, mirroring `json.loads`). -/
def pValue : Nat → List Char → Option (Json × List Char)
  | 0, _ => none
  | fuel + 1, cs =>
    match skipWs cs with
    | '{' :: rest => pMembers fuel (skipWs rest) []
    | '[' :: rest => pElems fuel (skipWs rest) []
    | '"' :: rest => (pStringAux [] rest).map (fun p => (.str p.1, p.2))
    | 't' :: 'r' :: 'u' :: 'e' :: rest => some (.bool true, rest)
    | 'f' :: 'a' :: 'l' :: 's' :: 'e' :: rest => some (.bool false, rest)
    | 'n' :: 'u' :: 'l' :: 'l' :: rest => some (.null, rest)
    | rest => pNumber rest

/-- Parse object members (cursor just inside the opening brace). -/
def pMembers : Nat → List Char → List (String × Json) →
    Option (Json × List Char)
  | 0, _, _ => none
  | fuel + 1, cs, acc =>
    match cs with
    | '}' :: rest => if acc.isEmpty then some (.obj acc.reverse, rest) else none
    | '"' :: rest =>
      match pStringAux [] rest with
      | none => none
      | some (key, r1) =>
        match skipWs r1 with
        | ':' :: r2 =>
          match pValue fuel r2 with
          | none => none
          | some (v, r3) =>
            match skipWs r3 with
            | ',' :: r4 => pMembers fuel (skipWs r4) ((key, v) :: acc)
            | '}' :: r4 => some (.obj ((key, v) :: acc).reverse, r4)
            | _ => none
        | _ => none
    | _ => none

/-- Parse array elements (cursor just inside the opening bracket). -/
def pElems : Nat → List Char → List Json → Option (Json × List Char)
  | 0, _, _ => none
  | fuel + 1, cs, acc =>
    match cs with
    | ']' :: rest => if acc.isEmpty then some (.arr acc.reverse, rest) else none
    | cs' =>
      match pValue fuel cs' with
      | none => none
      | some (v, r1) =>
        match skipWs r1 with
        | ',' :: r2 => pElems fuel (skipWs r2) (v :: acc)
        | ']' :: r2 => some (.arr (v :: acc).reverse, r2)
        | _ => none

end

/-- `json.loads` on a character list: parse a whole input, requiring only
whitespace after the value.  The fuel bound is generous for every input
(each nesting level of the grammar consumes at least one character per two
units of fuel). -/
def parseJsonChars (cs : List Char) : Option Json :=
  match pValue (2 * cs.length + 2) cs with
  | some (j, rest) => if (skipWs rest).isEmpty then some j else none
  | none => none

/-- `json.loads` on a string. -/
def parseJson (s : String) : Option Json := parseJsonChars s.data

/-- Dictionary lookup (`d[k]` / `d.get(k)`); inputs in this development have
no duplicate keys, so first-match lookup agrees with Python dict semantics. -/
def jlookup (kvs : List (String × Json)) (k : String) : Option Json :=
  match kvs with
  | [] => none
  | (k', v) :: rest => if k' = k then some v else jlookup rest k

/-- Dictionary assignment `d[k] = v`: replace in place, else append. -/
def objSet (kvs : List (String × Json)) (k : String) (v : Json) :
    List (String × Json) :=
  match kvs with
  | [] => [(k, v)]
  | (k', v') :: rest =>
    if k' = k then (k', v) :: rest else (k', v') :: objSet rest k v

/-- Python truthiness of a JSON value. -/
def Json.truthy : Json → Bool
  | .null => false
  | .bool b => b
  | .num n => n != 0
  | .str s => s != ""
  | .arr xs => !xs.isEmpty
  | .obj kvs => !kvs.isEmpty

/-- `text.startswith(p)` on character lists. -/
def listStartsWith : List Char → List Char → Bool
  | [], _ => true
  | _ :: _, [] => false
  | p :: ps, c :: cs => p = c && listStartsWith ps cs

/-- Python substring containment (`needle in haystack` for strings). -/
def listContainsSub : List Char → List Char → Bool
  | needle, [] => needle.isEmpty
  | needle, c :: cs => listStartsWith needle (c :: cs) || listContainsSub needle cs

/-- Python `key in container`: key membership for dicts, element equality
for lists, substring test for strings; `none` is the `TypeError` raised on
non-container values. -/
def pyContains (container : Json) (key : String) : Option Bool :=
  match container with
  | .obj kvs => some (jlookup kvs key).isSome
  | .arr xs =>
    some (xs.any fun x => match x with | .str s => s = key | _ => false)
  | .str s => some (listContainsSub key.data s.data)
  | _ => none

/-- Python `container[key]` with a string key: `none` is the `KeyError` of
a missing dict key or the `TypeError` of indexing a non-dict with a
string. -/
def pyIndexStr (container : Json) (key : String) : Option Json :=
  match container with
  | .obj kvs => jlookup kvs key
  | _ => none

/-- Python `len(v)`: `none` is the `TypeError` of unsized values. -/
def pyLen : Json → Option Nat
  | .str s => some s.length
  | .arr xs => some xs.length
  | .obj kvs => some kvs.length
  | _ => none

/-- Python `v[0]`: the head of a list, the first character of a string (a
one-character string); `none` is the `IndexError` of empty sequences, the
`KeyError` of dicts (parsed JSON keys are strings, never `0`), or the
`TypeError` of other values. -/
def pyIndex0 : Json → Option Json
  | .arr (x :: _) => some x
  | .str s =>
    match s.data with
    | c :: _ => some (.str (String.mk [c]))
    | [] => none
  | _ => none

/-- Escape one character as `json.dumps` does (ASCII payloads). -/
def escapeChar (c : Char) : String :=
  if c = '"' then "\\\""
  else if c = '\\' then "\\\\"
  else if c = '\n' then "\\n"
  else if c = '\t' then "\\t"
  else if c = '\r' then "\\r"
  else String.singleton c

/-- Escape a string body as `json.dumps` does. -/
def escapeString (s : String) : String := String.join (s.data.map escapeChar)

/-- A quoted, escaped JSON string literal. -/
def quoteString (s : String) : String := "\"" ++ escapeString s ++ "\""

/-- `n` spaces. -/
def spaces (n : Nat) : String := String.mk (List.replicate n ' ')

mutual

/-- `json.dumps(value, indent=2)` at nesting level `lvl`. -/
def dumpsIndent (lvl : Nat) : Json → String
  | .null => "null"
  | .bool true => "true"
  | .bool false => "false"
  | .num n => toString n
  | .str s => quoteString s
  | .arr [] => "[]"
  | .arr (x :: xs) =>
    "[\n" ++ dumpsIndentArr (lvl + 1) (x :: xs) ++ "\n" ++ spaces (2 * lvl) ++ "]"
  | .obj [] => "\x7b\x7d"
  | .obj (m :: ms) =>
    "\x7b\n" ++ dumpsIndentObj (lvl + 1) (m :: ms) ++ "\n" ++ spaces (2 * lvl)
      ++ "\x7d"

/-- Indented array items, comma-newline separated. -/
def dumpsIndentArr (lvl : Nat) : List Json → String
  | [] => ""
  | [x] => spaces (2 * lvl) ++ dumpsIndent lvl x
  | x :: y :: rest =>
    spaces (2 * lvl) ++ dumpsIndent lvl x ++ ",\n"
      ++ dumpsIndentArr lvl (y :: rest)

/-- Indented object members, comma-newline separated. -/
def dumpsIndentObj (lvl : Nat) : List (String × Json) → String
  | [] => ""
  | [(k, v)] => spaces (2 * lvl) ++ quoteString k ++ ": " ++ dumpsIndent lvl v
  | (k, v) :: m :: ms =>
    spaces (2 * lvl) ++ quoteString k ++ ": " ++ dumpsIndent lvl v ++ ",\n"
      ++ dumpsIndentObj lvl (m :: ms)

end

mutual

/-- `json.dumps(value)` with Python's default separators. -/
def dumpsCompact : Json → String
  | .null => "null"
  | .bool true => "true"
  | .bool false => "false"
  | .num n => toString n
  | .str s => quoteString s
  | .arr xs => "[" ++ dumpsCompactArr xs ++ "]"
  | .obj ms => "\x7b" ++ dumpsCompactObj ms ++ "\x7d"

/-- Compact array items, comma-space separated. -/
def dumpsCompactArr : List Json → String
  | [] => ""
  | [x] => dumpsCompact x
  | x :: y :: rest => dumpsCompact x ++ ", " ++ dumpsCompactArr (y :: rest)

/-- Compact object members, comma-space separated. -/
def dumpsCompactObj : List (String × Json) → String
  | [] => ""
  | [(k, v)] => quoteString k ++ ": " ++ dumpsCompact v
  | (k, v) :: m :: ms =>
    quoteString k ++ ": " ++ dumpsCompact v ++ ", " ++ dumpsCompactObj (m :: ms)

end

/-- Display JSON values by their compact serialization. -/
instance : Repr Json := ⟨fun j _ => Std.Format.text (dumpsCompact j)⟩

/-! ### Intercepted-exchange records (`models.py`)

The record structures keep the fields the proxy core reads or writes;
`method`, `url`, `headers` and `status_text` are pass-through data never
inspected by the handler logic and are projected away. -/

/-- `HttpRequest`: timestamp (abstract ms instant) and serialized body. -/
structure HttpRequest where
  timestamp : Nat
  body : String
  deriving DecidableEq, Repr

/-- `HttpResponse` (display body, raw body, latency, token usage, and the
streaming flags).  The `body` field holds the Python value assigned to it:
the source types it `str`, but line 381 can assign the raw extracted object
(for a truthy non-string `choices[0].message.content`), so it is modelled
as a `Json` value, with `.str` for ordinary text bodies. -/
structure HttpResponse where
  status_code : Nat
  body : Json
  raw_body : String := ""
  latency_ms : Option Nat := none
  prompt_tokens : Option Int := none
  completion_tokens : Option Int := none
  total_tokens : Option Int := none
  is_streaming : Bool := false
  streaming_content : String := ""
  streaming_complete : Bool := false
  deriving Repr

/-- `InterceptedRequest`: one request/response exchange. -/
structure InterceptedRequest where
  request : HttpRequest
  response : HttpResponse
  deriving Repr

/-- `ProxyConfig`: the fields the chat-completions handler consults. -/
structure ProxyConfig where
  openrouter_api_keys : List String
  openrouter_api_models : List String
  log_requests : Bool := true
  max_requests : Nat := 1000
  deriving DecidableEq, Repr

/-- The shared mutable server state: the two rotation cursors and the
bounded sink of intercepted exchanges. -/
structure ServerState where
  keyIndex : Nat
  modelIndex : Nat
  sink : List InterceptedRequest
  deriving Repr

/-- One `deque(maxlen=maxR).append`: add the entry, evicting the oldest
when over capacity. -/
def sinkPush (maxR : Nat) (sink : List InterceptedRequest)
    (e : InterceptedRequest) : List InterceptedRequest :=
  let s := sink ++ [e]
  s.drop (s.length - maxR)

/-- Appending several records one at a time to the bounded deque. -/
def sinkAppendAll (maxR : Nat) (sink newEx : List InterceptedRequest) :
    List InterceptedRequest :=
  newEx.foldl (sinkPush maxR) sink

/-! ### Response capture (`proxy_server.py` lines 364-385, 406-418) -/

/-- The extraction of `choices[0].message.content` (lines 369-378), step by
step with Python's evaluation order and exception behaviour.  The inner
`try` catches only `(json.JSONDecodeError, ValueError)`, so any
`TypeError`/`KeyError` raised here — `«choices» in 5`, `len(«choices»:5)`,
`{...}[0]` on a dict value, `choice[«message»]` on a string — escapes to the
generic handler at line 466; that is the `none` result.  `some v` is the
completed extraction, `v` being the assigned content value (`Json.str ""`
when nothing was assigned). -/
def chatExtract (parsed : Json) : Option Json :=
  match pyContains parsed "choices" with
  | none => none
  | some false => some (.str "")
  | some true =>
    match pyIndexStr parsed "choices" with
    | none => none
    | some choicesVal =>
      match pyLen choicesVal with
      | none => none
      | some 0 => some (.str "")
      | some (_ + 1) =>
        match pyIndex0 choicesVal with
        | none => none
        | some choice =>
          match pyContains choice "message" with
          | none => none
          | some false => some (.str "")
          | some true =>
            match pyIndexStr choice "message" with
            | none => none
            | some msg =>
              match pyContains msg "content" with
              | none => none
              | some false => some (.str "")
              | some true => pyIndexStr msg "content"

/-- `usage.{prompt_tokens, completion_tokens, total_tokens}` extraction
(lines 406-416); `none` when the body did not parse or is not a dict. -/
def tokensOf (j? : Option Json) : Option Int × Option Int × Option Int :=
  match j? with
  | some (.obj kvs) =>
    let usage := match jlookup kvs "usage" with
      | some (.obj u) => u
      | _ => []
    let pick := fun k => match jlookup usage k with
      | some (.num n) => some n
      | _ => none
    (pick "prompt_tokens", pick "completion_tokens", pick "total_tokens")
  | _ => (none, none, none)

/-! ### Streaming capture (`_stream_response_generator`, lines 112-206) -/

/-- Python's `text.split("\n")`: split on newlines, keeping empty pieces. -/
def splitLines : List Char → List (List Char)
  | [] => [[]]
  | c :: cs =>
    if c = '\n' then [] :: splitLines cs
    else
      match splitLines cs with
      | [] => [[c]]
      | l :: ls => (c :: l) :: ls

/-- Is the value a Python string? -/
def Json.isStr : Json → Bool
  | .str _ => true
  | _ => false

/-- The string behind a `.str` value (the join is only reached when every
value is a string). -/
def strOf : Json → String
  | .str s => s
  | _ => ""

/-- `"".join(values)` when every value is a string. -/
def joinStrs (l : List Json) : String := String.join (l.map strOf)

/-- Are all accumulated content values strings?  When not,
`"".join(extracted_content)` raises `TypeError` in Python. -/
def allStr (l : List Json) : Bool := l.all Json.isStr

/-- What processing one parsed SSE frame does (lines 133-138): append
content values, or raise.  The per-chunk `except` at lines 139-145 catches
`(json.JSONDecodeError, UnicodeDecodeError, KeyError, IndexError)` —
`chunkStop` — while `TypeError`/`AttributeError` escape to the generator's
outer `except` at line 161 and end the stream — `streamStop`. -/
inductive LineOutcome where
  | contents (cs : List Json)
  | chunkStop
  | streamStop
  deriving Repr

/-- `data["choices"][0].get("delta", {}).get("content", "")` for one choice
(lines 134-137): `.get` on a non-dict raises `AttributeError` (uncaught). -/
def lineChoice (choice : Json) : LineOutcome :=
  match choice with
  | .obj ckvs =>
    match jlookup ckvs "delta" with
    | none =>
      .contents []
    | some (.obj dkvs) =>
      match jlookup dkvs "content" with
      | none => .contents []
      | some v => if v.truthy then .contents [v] else .contents []
    | some _ => .streamStop
  | _ => .streamStop

/-- Lines 133-137 for one parsed frame `data`: membership test, length
check, indexing, then the delta extraction, each with Python's exception
kind. -/
def lineContent (data : Json) : LineOutcome :=
  match pyContains data "choices" with
  | none => .streamStop
  | some false => .contents []
  | some true =>
    match data with
    | .obj kvs =>
      match jlookup kvs "choices" with
      | none => .chunkStop
      | some choicesVal =>
        match pyLen choicesVal with
        | none => .streamStop
        | some 0 => .contents []
        | some (_ + 1) =>
          match choicesVal with
          | .arr (c :: _) => lineChoice c
          | .str s =>
            match s.data with
            | ch :: _ => lineChoice (.str (String.mk [ch]))
            | [] => .contents []
          | .obj _ => .chunkStop
          | _ => .streamStop
    | _ => .streamStop

/-- Process the lines of one chunk (lines 126-145): every `data: ` line
that is not the `[DONE]` sentinel and is non-blank after the marker is
JSON-parsed and fed to `lineContent`.  Returns the content values appended
and whether the stream died (an uncaught exception).  A parse failure or a
caught exception stops the rest of the chunk, keeping the contents
extracted so far; an uncaught exception also kills the generator loop. -/
def chunkScan : List (List Char) → List Json × Bool
  | [] => ([], false)
  | line :: rest =>
    if listStartsWith ("data: ").data line
        ∧ ¬ listStartsWith ("data: [DONE]").data line then
      let jsonData := line.drop 6
      if ¬ (skipWs jsonData).isEmpty then
        match parseJsonChars jsonData with
        | none => ([], false)
        | some j =>
          match lineContent j with
          | .contents cs =>
            let r := chunkScan rest
            (cs ++ r.1, r.2)
          | .chunkStop => ([], false)
          | .streamStop => ([], true)
      else chunkScan rest
    else chunkScan rest

/-- A streaming-update delivery to the `on_streaming_update` callback:
the exchange's accumulated content and completion flag at that instant. -/
structure StreamNotification where
  content : String
  complete : Bool
  deriving DecidableEq, Repr

/-- The generator's closure state: the response record being mutated, the
notifications delivered so far, the extracted content values, the captured
chunks, and whether an uncaught exception ended the `async for` loop. -/
structure StreamState where
  resp : HttpResponse
  notifs : List StreamNotification
  extracted : List Json
  rawChunks : List String
  dead : Bool
  deriving Repr

/-- One iteration of the `async for` body (lines 120-160): capture the
chunk, scan its lines, and on new content run the notify block — whose
`"".join(extracted_content)` at line 150 raises `TypeError` when any
accumulated content value is not a string, ending the stream before the
record is touched.  A dead stream consumes no further chunks. -/
def streamChunk (ss : StreamState) (chunk : String) : StreamState :=
  if ss.dead then ss
  else
    let scan := chunkScan (splitLines chunk.data)
    let rawChunks := ss.rawChunks ++ [chunk]
    let extracted := ss.extracted ++ scan.1
    if scan.2 then
      { ss with rawChunks := rawChunks, extracted := extracted, dead := true }
    else if scan.1.isEmpty then
      { ss with rawChunks := rawChunks, extracted := extracted }
    else if allStr extracted then
      let content := joinStrs extracted
      { resp := { ss.resp with
          streaming_content := content
          is_streaming := true
          streaming_complete := false }
        notifs := ss.notifs ++ [⟨content, false⟩]
        extracted := extracted
        rawChunks := rawChunks
        dead := false }
    else
      { ss with rawChunks := rawChunks, extracted := extracted, dead := true }

/-- The generator's `finally` block (lines 163-206): when at least one
chunk was captured, assign the raw body (line 167) and then — unless the
`"".join(extracted_content)` at line 169 raises `TypeError` on a non-string
content value, caught at line 204 with the record left incomplete — fill in
the display body, flip the flags, compute latency from the request
timestamp, and deliver a final notification. -/
def streamFinalize (ss : StreamState) (reqTimestamp endTime : Nat) :
    StreamState :=
  if ss.rawChunks.isEmpty then ss
  else
    let full := String.join ss.rawChunks
    if ss.extracted.isEmpty then
      { ss with
        resp := { ss.resp with
          raw_body := full
          body := .str full
          streaming_content := full
          is_streaming := false
          streaming_complete := true
          latency_ms := some (endTime - reqTimestamp) }
        notifs := ss.notifs ++ [⟨full, true⟩] }
    else if allStr ss.extracted then
      let readable := joinStrs ss.extracted
      { ss with
        resp := { ss.resp with
          raw_body := full
          body := .str readable
          streaming_content := readable
          is_streaming := false
          streaming_complete := true
          latency_ms := some (endTime - reqTimestamp) }
        notifs := ss.notifs ++ [⟨readable, true⟩] }
    else
      { ss with resp := { ss.resp with raw_body := full } }

/-- Run the whole streaming generator over the chunk list delivered by the
upstream response. -/
def streamRun (resp0 : HttpResponse) (chunks : List String)
    (reqTimestamp endTime : Nat) : StreamState :=
  streamFinalize (chunks.foldl streamChunk ⟨resp0, [], [], [], false⟩)
    reqTimestamp endTime

/-! ### Retry/fallback orchestrator (`chat_completions`, lines 234-483) -/

/-- Outcome of the i-th upstream call of a request, as seen by the handler:
an HTTP reply (with buffered body text, and the byte stream for streaming
mode), an `httpx.RequestError`, or any other exception raised while
processing the attempt. -/
inductive UpstreamResult where
  | reply (status : Nat) (body : String) (chunks : List String)
  | transportError (msg : String)
  | unexpectedError (msg : String)
  deriving DecidableEq, Repr

/-- Did the upstream call return status 200? -/
def UpstreamResult.is200 : UpstreamResult → Bool
  | .reply s _ _ => s == 200
  | _ => false

/-- What one loop iteration does: terminal success returning a response to
the inbound caller, or a remembered failure.  `raising` marks the failure
kinds that re-raise at the last iteration from inside the loop (any non-200
non-429 status, transport errors, unexpected errors) as opposed to a 429,
which always falls through to the post-loop exhaustion raise.  `newEx` lists
the exchanges recorded in the sink during the attempt. -/
inductive AttemptOutcome where
  | terminalSuccess (streaming : Bool) (chunks : List String) (payload : Json)
      (newEx : List InterceptedRequest)
  | softFail (status : Nat) (detail : String)
      (newEx : List InterceptedRequest) (raising : Bool)
  deriving Repr

/-- Is the attempt a terminal success? -/
def AttemptOutcome.isTerminal : AttemptOutcome → Bool
  | .terminalSuccess .. => true
  | _ => false

/-- Status remembered by a failed attempt (0 for a terminal success). -/
def AttemptOutcome.failStatus : AttemptOutcome → Nat
  | .softFail s _ _ _ => s
  | _ => 0

/-- Detail remembered by a failed attempt. -/
def AttemptOutcome.failDetail : AttemptOutcome → String
  | .softFail _ d _ _ => d
  | _ => ""

/-- Does the failed attempt re-raise from inside the loop when it is the
last iteration? -/
def AttemptOutcome.raising : AttemptOutcome → Bool
  | .softFail _ _ _ r => r
  | _ => false

/-- Exchanges recorded during the attempt. -/
def AttemptOutcome.newEx : AttemptOutcome → List InterceptedRequest
  | .terminalSuccess _ _ _ ex => ex
  | .softFail _ _ ex _ => ex

/-- Detail text of a 429 attempt (line 332). -/
def rateLimitDetail (keyIdx modelIdx : Nat) (modelName body : String) :
    String :=
  "Rate limit exceeded for API key index " ++ toString keyIdx ++ ", model "
    ++ modelName ++ " (index " ++ toString modelIdx ++ ") Response: " ++ body

/-- Detail text of a non-200 non-429 attempt (lines 344, 446). -/
def upstreamErrorDetail (keyIdx modelIdx status : Nat)
    (modelName body : String) : String :=
  "Error with API key index " ++ toString keyIdx ++ ", model " ++ modelName
    ++ " (index " ++ toString modelIdx ++ "): Status " ++ toString status
    ++ ", Response: " ++ body

/-- Detail text of a transport error (line 457). -/
def transportErrorDetail (keyIdx modelIdx : Nat) (modelName msg : String) :
    String :=
  "HTTPX Request Error with API key index " ++ toString keyIdx ++ ", model "
    ++ modelName ++ " (index " ++ toString modelIdx ++ "): " ++ msg

/-- Detail text of an unexpected error (line 467). -/
def unexpectedErrorDetail (keyIdx modelIdx : Nat) (modelName msg : String) :
    String :=
  "Unexpected error processing request with API key index " ++ toString keyIdx
    ++ ", model " ++ modelName ++ " (index " ++ toString modelIdx ++ "): "
    ++ msg

/-- The in-progress response record built for a streaming 200 (lines
294-303). -/
def streamingInProgressResponse : HttpResponse :=
  { status_code := 200
    body := .str "[Streaming in progress...]"
    raw_body := "[Streaming in progress...]"
    is_streaming := true
    streaming_content := ""
    streaming_complete := false }

/-- The complete response record built for a non-streaming 200 (lines
364-418), given the display-body value the extraction produced. -/
def nonStreamingResponse (rawText : String) (bodyVal : Json) (lat : Nat) :
    HttpResponse :=
  let toks := tokensOf (parseJson rawText)
  { status_code := 200
    body := bodyVal
    raw_body := rawText
    latency_ms := some lat
    prompt_tokens := toks.1
    completion_tokens := toks.2.1
    total_tokens := toks.2.2 }

/-- One iteration of the model loop (lines 280-474) for a given upstream
outcome.  `lat` is the wall-clock latency of a buffered attempt.

Faithfulness notes traced from the source:
* streaming 200 with `log_requests` disabled leaves the local `intercepted`
  unbound, so building the `StreamingResponse` raises a `NameError` that the
  generic handler at line 466 turns into an unexpected error;
* a non-streaming 200 whose body parses as JSON but whose extraction raises
  `TypeError`/`KeyError` (see `chatExtract`) records nothing and becomes an
  unexpected error;
* a non-streaming 200 whose body is not valid JSON records the exchange
  first (lines 420-431) and then crashes at `api_response.json()` on line
  434, likewise becoming an unexpected error. -/
def attemptOne (cfg : ProxyConfig) (keyIdx modelIdx : Nat)
    (modelName : String) (isStreaming : Bool) (r : UpstreamResult)
    (ts lat : Nat) (reqBody : String) : AttemptOutcome :=
  match r with
  | .transportError msg =>
    .softFail 503 (transportErrorDetail keyIdx modelIdx modelName msg) [] true
  | .unexpectedError msg =>
    .softFail 500 (unexpectedErrorDetail keyIdx modelIdx modelName msg) [] true
  | .reply status body chunks =>
    if isStreaming then
      if status = 200 then
        if cfg.log_requests then
          let ex : InterceptedRequest :=
            ⟨⟨ts, reqBody⟩, streamingInProgressResponse⟩
          .terminalSuccess true chunks .null [ex]
        else
          .softFail 500
            (unexpectedErrorDetail keyIdx modelIdx modelName "NameError") []
            true
      else if status = 429 then
        .softFail 429 (rateLimitDetail keyIdx modelIdx modelName body) [] false
      else
        .softFail status
          (upstreamErrorDetail keyIdx modelIdx status modelName body) [] true
    else
      if status = 200 then
        match parseJson body with
        | some j =>
          match chatExtract j with
          | none =>
            .softFail 500
              (unexpectedErrorDetail keyIdx modelIdx modelName "TypeError")
              [] true
          | some content =>
            let formatted : Json :=
              if content.truthy then content else .str (dumpsIndent 0 j)
            let resp := nonStreamingResponse body formatted lat
            let exs := if cfg.log_requests then
                [(⟨⟨ts, reqBody⟩, resp⟩ : InterceptedRequest)] else []
            .terminalSuccess false [] j exs
        | none =>
          let resp := nonStreamingResponse body (.str body) lat
          let exs := if cfg.log_requests then
              [(⟨⟨ts, reqBody⟩, resp⟩ : InterceptedRequest)] else []
          .softFail 500
            (unexpectedErrorDetail keyIdx modelIdx modelName "JSONDecodeError")
            exs true
      else if status = 429 then
        .softFail 429 (rateLimitDetail keyIdx modelIdx modelName body) [] false
      else
        .softFail status
          (upstreamErrorDetail keyIdx modelIdx status modelName body) [] true

/-- How the model loop ended: a terminal success, a raise from inside the
loop at the last iteration (lines 349-353, 450-454, 461-464, 471-474), or
normal exhaustion falling through to lines 476-483. -/
inductive LoopRes where
  | success (streaming : Bool) (chunks : List String) (payload : Json)
  | raised (status : Nat) (detail : String)
  | exhausted (status : Nat) (detail : String)
  deriving Repr

/-- Result of the model loop: its ending, the exchanges recorded, and the
number of upstream calls issued. -/
structure LoopOut where
  res : LoopRes
  newEx : List InterceptedRequest
  calls : Nat
  deriving Repr

/-- The `for i in range(num_models)` loop (lines 253-474), with the indices
still to try, the remembered `last_error`, the exchanges recorded so far and
the number of calls made. -/
def runGo (att : Nat → AttemptOutcome) :
    List Nat → Nat → String → List InterceptedRequest → Nat → LoopOut
  | [], s, d, acc, c => ⟨.exhausted s d, acc, c⟩
  | i :: rest, _s, _d, acc, c =>
    match att i with
    | .terminalSuccess streaming chunks payload ex =>
      ⟨.success streaming chunks payload, acc ++ ex, c + 1⟩
    | .softFail s' d' ex raising =>
      if rest.isEmpty ∧ raising then ⟨.raised s' d', acc ++ ex, c + 1⟩
      else runGo att rest s' d' (acc ++ ex) (c + 1)

/-- Run the loop over all `N` model indices with the initial `last_error`
defaults of lines 249-250. -/
def runAttempts (att : Nat → AttemptOutcome) (numModels : Nat) : LoopOut :=
  runGo att (List.range' 0 numModels) 500 "All API models failed." [] 0

/-- The `stream` flag of the inbound body (line 243): `request_data.get
("stream", False)` used for its truthiness. -/
def isStreamingOf (kvs : List (String × Json)) : Bool :=
  (match jlookup kvs "stream" with
   | some v => v
   | none => .bool false).truthy

/-- The i-th attempt of a request: model index `(start + i) mod N`, the body
re-serialized with the `model` field set (lines 254-259). -/
def attOf (cfg : ProxyConfig) (st : ServerState)
    (kvs : List (String × Json)) (oracle : Nat → UpstreamResult)
    (ts lat : Nat) (i : Nat) : AttemptOutcome :=
  let numModels := cfg.openrouter_api_models.length
  let modelIdx := (st.modelIndex + i) % numModels
  let modelName := cfg.openrouter_api_models.getD modelIdx ""
  attemptOne cfg st.keyIndex modelIdx modelName (isStreamingOf kvs)
    (oracle i) ts lat
    (dumpsCompact (.obj (objSet kvs "model" (.str modelName))))

/-- What the handler hands back to the transport layer: a response, an
`HTTPException` rendered by FastAPI as `«detail»: <string>» JSON with the
given status, or an exception that escapes the handler entirely (rendered by
Starlette as a plain-text 500 with no JSON detail body). -/
inductive HandlerResult where
  | success (streaming : Bool) (chunks : List String) (payload : Json)
  | httpError (status : Nat) (detail : String)
  | crash (exc : String)
  deriving Repr

/-- Is the result a success response? -/
def HandlerResult.isSuccess : HandlerResult → Bool
  | .success .. => true
  | _ => false

/-- The `HTTPException` status, when the result is one. -/
def HandlerResult.errStatus? : HandlerResult → Option Nat
  | .httpError s _ => some s
  | _ => none

/-- The escaping exception, when the result is one. -/
def HandlerResult.crashMsg? : HandlerResult → Option String
  | .crash e => some e
  | _ => none

/-- The full outcome of one inbound request: result, post-request server
state, number of upstream calls, and the key index the request observed. -/
structure HandlerOutcome where
  result : HandlerResult
  state : ServerState
  calls : Nat
  usedKeyIndex : Option Nat
  deriving Repr

/-- Post-loop bookkeeping (the branches after the loop body): the key cursor
was already advanced; the model cursor advances only on the exhaustion path,
where an empty model list makes line 477 divide by zero. -/
def finishRequest (cfg : ProxyConfig) (st : ServerState) (out : LoopOut) :
    HandlerOutcome :=
  let st1 : ServerState :=
    { st with keyIndex := (st.keyIndex + 1) % cfg.openrouter_api_keys.length }
  let sink' := sinkAppendAll cfg.max_requests st.sink out.newEx
  let numModels := cfg.openrouter_api_models.length
  match out.res with
  | .success streaming chunks payload =>
    ⟨.success streaming chunks payload, { st1 with sink := sink' }, out.calls,
      some st.keyIndex⟩
  | .raised s d =>
    ⟨.httpError s d, { st1 with sink := sink' }, out.calls, some st.keyIndex⟩
  | .exhausted s d =>
    if numModels = 0 then
      ⟨.crash "ZeroDivisionError", { st1 with sink := sink' }, out.calls,
        some st.keyIndex⟩
    else
      ⟨.httpError s d,
        { st1 with
          modelIndex := (st.modelIndex + 1) % numModels
          sink := sink' },
        out.calls, some st.keyIndex⟩

/-- The `POST /v1/chat/completions` handler (lines 234-483) for one inbound
request: parse the body (400 on invalid JSON, before any cursor moves; a
non-dict body crashes at `request_data.get` on line 243), take the next key
index (503 when no keys are configured), peek the model cursor, and run the
model loop. -/
def chatCompletions (cfg : ProxyConfig) (st : ServerState) (inbound : String)
    (oracle : Nat → UpstreamResult) (ts lat : Nat) : HandlerOutcome :=
  match parseJson inbound with
  | none => ⟨.httpError 400 "Invalid JSON body", st, 0, none⟩
  | some (.obj kvs) =>
    if cfg.openrouter_api_keys.length = 0 then
      ⟨.httpError 503 "No OpenRouter API keys configured", st, 0, none⟩
    else
      finishRequest cfg st
        (runAttempts (attOf cfg st kvs oracle ts lat)
          cfg.openrouter_api_models.length)
  | some _ => ⟨.crash "AttributeError", st, 0, none⟩

/-- `m` consecutive inbound requests with the same body and upstream
behaviour. -/
def iterateReq (cfg : ProxyConfig) (inbound : String)
    (oracle : Nat → UpstreamResult) (ts lat : Nat) :
    Nat → ServerState → ServerState
  | 0, st => st
  | m + 1, st =>
    (chatCompletions cfg (iterateReq cfg inbound oracle ts lat m st) inbound
      oracle ts lat).state

/-! ### General behaviour of the model loop -/

/-- If every attempt in the list fails, the loop ends at the last index:
re-raising from inside the loop when that failure is of the raising kind,
otherwise falling through to exhaustion; either way it made one call per
index and accumulated every attempt's recorded exchanges. -/
theorem runGo_all_soft (att : Nat → AttemptOutcome) :
    ∀ (l : List Nat) (i : Nat) (s : Nat) (d : String)
      (acc : List InterceptedRequest) (c : Nat),
      (∀ j, j ∈ l ++ [i] → (att j).isTerminal = false) →
      runGo att (l ++ [i]) s d acc c =
        ⟨if (att i).raising then
            .raised (att i).failStatus (att i).failDetail
          else .exhausted (att i).failStatus (att i).failDetail,
          acc ++ (l ++ [i]).flatMap (fun j => (att j).newEx),
          c + l.length + 1⟩ := by
  intro l
  induction l with
  | nil =>
    intro i s d acc c hall
    have hi := hall i (by simp)
    cases hatt : att i with
    | terminalSuccess streaming chunks payload ex =>
      rw [hatt] at hi
      simp [AttemptOutcome.isTerminal] at hi
    | softFail s' d' ex raising =>
      simp only [List.nil_append, runGo, hatt, List.isEmpty_nil, true_and]
      cases raising with
      | true =>
        simp [hatt, AttemptOutcome.raising, AttemptOutcome.failStatus,
          AttemptOutcome.failDetail, AttemptOutcome.newEx]
      | false =>
        simp [runGo, hatt, AttemptOutcome.raising, AttemptOutcome.failStatus,
          AttemptOutcome.failDetail, AttemptOutcome.newEx]
  | cons a l ih =>
    intro i s d acc c hall
    have ha := hall a (by simp)
    cases hatt : att a with
    | terminalSuccess streaming chunks payload ex =>
      rw [hatt] at ha
      simp [AttemptOutcome.isTerminal] at ha
    | softFail s' d' ex raising =>
      have hne : ¬((l ++ [i]).isEmpty = true ∧ raising = true) := by
        simp [List.isEmpty_eq_true]
      simp only [List.cons_append, runGo, hatt, List.append_eq]
      rw [if_neg hne]
      rw [ih i s' d' (acc ++ ex) (c + 1)
        (fun j hj => hall j (by simp at hj ⊢; tauto))]
      simp [hatt, AttemptOutcome.newEx, List.flatMap_cons, List.append_assoc]
      omega

/-- If every attempt before `j` fails without recording anything and attempt
`j` succeeds, the loop returns `j`'s success immediately after `j + 1` calls
counted from the prefix. -/
theorem runGo_first_terminal (att : Nat → AttemptOutcome) :
    ∀ (l : List Nat) (j : Nat) (rest : List Nat) (streaming : Bool)
      (chunks : List String) (payload : Json)
      (ex : List InterceptedRequest) (s : Nat) (d : String)
      (acc : List InterceptedRequest) (c : Nat),
      (∀ i ∈ l, (att i).isTerminal = false ∧ (att i).newEx = []) →
      att j = .terminalSuccess streaming chunks payload ex →
      runGo att (l ++ j :: rest) s d acc c =
        ⟨.success streaming chunks payload, acc ++ ex, c + l.length + 1⟩ := by
  intro l
  induction l with
  | nil =>
    intro j rest streaming chunks payload ex s d acc c _ hterm
    simp [runGo, hterm]
  | cons a l ih =>
    intro j rest streaming chunks payload ex s d acc c hall hterm
    have ha := hall a (by simp)
    cases hatt : att a with
    | terminalSuccess str' ch' p' ex' =>
      rw [hatt] at ha
      simp [AttemptOutcome.isTerminal] at ha
    | softFail s' d' ex' raising =>
      have hex : ex' = [] := by
        have := ha.2
        rw [hatt] at this
        simpa [AttemptOutcome.newEx] using this
      subst hex
      have hne : ¬((l ++ j :: rest).isEmpty = true ∧ raising = true) := by
        simp [List.isEmpty_eq_true]
      simp only [List.cons_append, runGo, hatt, List.append_eq,
        List.append_nil]
      rw [if_neg hne]
      rw [ih j rest streaming chunks payload ex s' d' acc (c + 1)
        (fun i hi => hall i (by simp [hi])) hterm]
      simp
      omega

/-- With a parsed dict body and a non-empty key list, the handler is the
post-loop bookkeeping applied to the loop run over all model indices. -/
theorem chatCompletions_eq (cfg : ProxyConfig) (st : ServerState)
    (inbound : String) (kvs : List (String × Json))
    (oracle : Nat → UpstreamResult) (ts lat : Nat)
    (hparse : parseJson inbound = some (.obj kvs))
    (hkeys : cfg.openrouter_api_keys.length ≠ 0) :
    chatCompletions cfg st inbound oracle ts lat =
      finishRequest cfg st
        (runAttempts (attOf cfg st kvs oracle ts lat)
          cfg.openrouter_api_models.length) := by
  unfold chatCompletions
  rw [hparse]
  simp [hkeys]

/-! ### Claim theorems -/

/-- C5: a request that succeeds (any attempt returns status 200 and a
response is returned to the inbound caller) leaves the shared model cursor
unchanged, so the next request starts from the same model index. -/
theorem success_leaves_model_cursor (cfg : ProxyConfig) (st : ServerState)
    (inbound : String) (oracle : Nat → UpstreamResult) (ts lat : Nat)
    (hsucc : (chatCompletions cfg st inbound oracle ts lat).result.isSuccess
      = true) :
    (chatCompletions cfg st inbound oracle ts lat).state.modelIndex
      = st.modelIndex := by
  unfold chatCompletions at hsucc ⊢
  cases hp : parseJson inbound with
  | none => rfl
  | some j =>
    cases j with
    | null => rfl
    | bool b => rfl
    | num n => rfl
    | str s => rfl
    | arr xs => rfl
    | obj kvs =>
      by_cases hk : cfg.openrouter_api_keys.length = 0
      · simp [hk]
      · rw [hp] at hsucc
        simp only [hk] at hsucc ⊢
        unfold finishRequest at hsucc ⊢
        cases hres : (runAttempts (attOf cfg st kvs oracle ts lat)
            cfg.openrouter_api_models.length).res with
        | success streaming chunks payload => rfl
        | raised s d => rfl
        | exhausted s d =>
          rw [hres] at hsucc
          by_cases hN : cfg.openrouter_api_models.length = 0
          · simp [hN]
          · simp [hN, HandlerResult.isSuccess] at hsucc

/-- C5 witness: a concrete request that succeeds on the only model leaves
the model cursor at its starting value. -/
theorem success_leaves_model_cursor_witness :
    (chatCompletions ⟨["k"], ["m"], true, 1000⟩ ⟨0, 0, []⟩ "\x7b\x7d"
      (fun _ => .reply 200
        "\x7b\"choices\":[\x7b\"message\":\x7b\"content\":\"hi\"\x7d\x7d]\x7d"
        []) 0 7).state.modelIndex = 0 :=
  success_leaves_model_cursor ⟨["k"], ["m"], true, 1000⟩ ⟨0, 0, []⟩ "\x7b\x7d"
    (fun _ => .reply 200
      "\x7b\"choices\":[\x7b\"message\":\x7b\"content\":\"hi\"\x7d\x7d]\x7d"
      []) 0 7 (by decide)

/-- C4: a request with an empty key list fails with a 503 configuration
error and issues no upstream call; but a request with keys configured and an
empty model list does not fail with the claimed 503 — the loop body never
runs (no upstream call), and the post-loop cursor advance at line 477
divides by zero, an uncaught exception surfacing as a plain 500.  The dead
guard in `_get_next_model_index` (lines 99-109) shows the 503 was the
intent: `chat_completions` reads `self._current_model_index` directly (line
248) and never calls it. -/
theorem missing_config_behaviour :
    ((chatCompletions ⟨[], ["m"], true, 1000⟩ ⟨0, 0, []⟩ "\x7b\x7d"
        (fun _ => .reply 200 "" []) 0 0).result.errStatus? = some 503)
    ∧ ((chatCompletions ⟨[], ["m"], true, 1000⟩ ⟨0, 0, []⟩ "\x7b\x7d"
        (fun _ => .reply 200 "" []) 0 0).calls = 0)
    ∧ ((chatCompletions ⟨["k"], [], true, 1000⟩ ⟨0, 0, []⟩ "\x7b\x7d"
        (fun _ => .reply 200 "" []) 0 0).result.crashMsg?
      = some "ZeroDivisionError")
    ∧ ((chatCompletions ⟨["k"], [], true, 1000⟩ ⟨0, 0, []⟩ "\x7b\x7d"
        (fun _ => .reply 200 "" []) 0 0).result.errStatus? = none)
    ∧ ((chatCompletions ⟨["k"], [], true, 1000⟩ ⟨0, 0, []⟩ "\x7b\x7d"
        (fun _ => .reply 200 "" []) 0 0).calls = 0) := by
  decide

/-- The key cursor advances by exactly one modulo the key count on every
request that reaches `_get_next_key_index`, and the request observes the
pre-advance index; this holds on every loop outcome. -/
theorem keyAdvance (cfg : ProxyConfig) (st : ServerState) (inbound : String)
    (kvs : List (String × Json)) (oracle : Nat → UpstreamResult)
    (ts lat : Nat)
    (hparse : parseJson inbound = some (.obj kvs))
    (hkeys : cfg.openrouter_api_keys.length ≠ 0) :
    (chatCompletions cfg st inbound oracle ts lat).state.keyIndex
      = (st.keyIndex + 1) % cfg.openrouter_api_keys.length
    ∧ (chatCompletions cfg st inbound oracle ts lat).usedKeyIndex
      = some st.keyIndex := by
  rw [chatCompletions_eq cfg st inbound kvs oracle ts lat hparse hkeys]
  unfold finishRequest
  cases hres : (runAttempts (attOf cfg st kvs oracle ts lat)
      cfg.openrouter_api_models.length).res with
  | success streaming chunks payload => exact ⟨rfl, rfl⟩
  | raised s d => exact ⟨rfl, rfl⟩
  | exhausted s d =>
    by_cases hN : cfg.openrouter_api_models.length = 0 <;> simp [hN]

/-- C9 counterexample: with two configured keys, an inbound request whose
body is not valid JSON is rejected with 400 at line 241, before
`_get_next_key_index` runs — the key cursor stays at 0 instead of advancing
to `(0 + 1) mod 2 = 1`, contradicting "advances on every inbound request
regardless of outcome". -/
theorem key_rotation_counterexample :
    ((chatCompletions ⟨["a", "b"], ["m"], true, 1000⟩ ⟨0, 0, []⟩ "not json"
        (fun _ => .reply 200 "" []) 0 0).result.errStatus? = some 400)
    ∧ ((chatCompletions ⟨["a", "b"], ["m"], true, 1000⟩ ⟨0, 0, []⟩ "not json"
        (fun _ => .reply 200 "" []) 0 0).state.keyIndex = 0)
    ∧ (0 : Nat) ≠ (0 + 1) % 2 := by decide

/-- C9 (amended): for every inbound request whose body parses as a JSON
dict — the only requests that reach the key rotation — the key cursor
advances by exactly one modulo N and the request observes the pre-advance
index; hence m consecutive such requests move the cursor to
`(start + m) mod N`, and within a window of N requests the observed
indices `(start + j) mod N` are pairwise distinct.  A request rejected with
400 for invalid JSON (line 241), and a request with a valid-JSON non-dict
body, which crashes with `AttributeError` at `request_data.get` (line 243),
both leave the key cursor unchanged: each happens before
`_get_next_key_index` runs at line 245. -/
theorem key_rotation_amended (cfg : ProxyConfig) (st : ServerState)
    (inbound : String) (kvs : List (String × Json))
    (oracle : Nat → UpstreamResult) (ts lat : Nat)
    (hparse : parseJson inbound = some (.obj kvs))
    (hkeys : cfg.openrouter_api_keys.length ≠ 0)
    (hlt : st.keyIndex < cfg.openrouter_api_keys.length) :
    ((chatCompletions cfg st inbound oracle ts lat).state.keyIndex
      = (st.keyIndex + 1) % cfg.openrouter_api_keys.length
    ∧ (chatCompletions cfg st inbound oracle ts lat).usedKeyIndex
      = some st.keyIndex)
    ∧ (∀ m, (iterateReq cfg inbound oracle ts lat m st).keyIndex
      = (st.keyIndex + m) % cfg.openrouter_api_keys.length)
    ∧ (∀ j1 j2, j1 < cfg.openrouter_api_keys.length →
        j2 < cfg.openrouter_api_keys.length →
        (st.keyIndex + j1) % cfg.openrouter_api_keys.length
          = (st.keyIndex + j2) % cfg.openrouter_api_keys.length →
        j1 = j2)
    ∧ (∀ inb2 : String, parseJson inb2 = none →
        (chatCompletions cfg st inb2 oracle ts lat).state.keyIndex
          = st.keyIndex
        ∧ (chatCompletions cfg st inb2 oracle ts lat).result.errStatus?
          = some 400)
    ∧ (∀ (inb3 : String) (j : Json), parseJson inb3 = some j →
        (∀ kvs2, j ≠ .obj kvs2) →
        (chatCompletions cfg st inb3 oracle ts lat).state.keyIndex
          = st.keyIndex
        ∧ (chatCompletions cfg st inb3 oracle ts lat).result.crashMsg?
          = some "AttributeError") := by
  refine ⟨keyAdvance cfg st inbound kvs oracle ts lat hparse hkeys, ?_, ?_,
    ?_, ?_⟩
  · intro m
    induction m with
    | zero => simp [iterateReq, Nat.mod_eq_of_lt hlt]
    | succ m ih =>
      have h := (keyAdvance cfg (iterateReq cfg inbound oracle ts lat m st)
        inbound kvs oracle ts lat hparse hkeys).1
      show (chatCompletions cfg (iterateReq cfg inbound oracle ts lat m st)
        inbound oracle ts lat).state.keyIndex = _
      rw [h, ih, Nat.mod_add_mod, Nat.add_assoc]
  · intro j1 j2 h1 h2 heq
    have hc : j1 ≡ j2 [MOD cfg.openrouter_api_keys.length] :=
      Nat.ModEq.add_left_cancel (Nat.ModEq.refl st.keyIndex) heq
    rwa [Nat.ModEq, Nat.mod_eq_of_lt h1, Nat.mod_eq_of_lt h2] at hc
  · intro inb2 hp2
    exact ⟨by unfold chatCompletions; rw [hp2],
      by unfold chatCompletions; rw [hp2]; rfl⟩
  · intro inb3 j hp3 hno
    cases j with
    | obj kvs2 => exact absurd rfl (hno kvs2)
    | null =>
      exact ⟨by unfold chatCompletions; rw [hp3],
        by unfold chatCompletions; rw [hp3]; rfl⟩
    | bool b =>
      exact ⟨by unfold chatCompletions; rw [hp3],
        by unfold chatCompletions; rw [hp3]; rfl⟩
    | num n =>
      exact ⟨by unfold chatCompletions; rw [hp3],
        by unfold chatCompletions; rw [hp3]; rfl⟩
    | str s =>
      exact ⟨by unfold chatCompletions; rw [hp3],
        by unfold chatCompletions; rw [hp3]; rfl⟩
    | arr xs =>
      exact ⟨by unfold chatCompletions; rw [hp3],
        by unfold chatCompletions; rw [hp3]; rfl⟩

/-- C9 amended witness: with two keys and every upstream attempt failing,
two consecutive valid requests return the key cursor to 0. -/
theorem key_rotation_amended_witness :
    (iterateReq ⟨["a", "b"], ["m"], true, 1000⟩ "\x7b\x7d"
      (fun _ => .reply 418 "e" []) 0 0 2 ⟨0, 0, []⟩).keyIndex = 0 := by
  have h := key_rotation_amended ⟨["a", "b"], ["m"], true, 1000⟩ ⟨0, 0, []⟩
    "\x7b\x7d" [] (fun _ => .reply 418 "e" []) 0 0 rfl (by decide) (by decide)
  simpa using h.2.1 2

/-- SSE frames used by the streaming theorems: a `"He"` content delta, a
`"llo"` content delta, a truthy non-string (`5`) content delta, a frame
whose payload is the bare number `5`, and the `[DONE]` sentinel. -/
def frameHe : String :=
  "data: \x7b\"choices\":[\x7b\"delta\":\x7b\"content\":\"He\"\x7d\x7d]\x7d\n"

/-- The `"llo"` content frame. -/
def frameLlo : String :=
  "data: \x7b\"choices\":[\x7b\"delta\":\x7b\"content\":\"llo\"\x7d\x7d]\x7d\n"

/-- A frame whose delta content is the truthy non-string `5`. -/
def frameNum : String :=
  "data: \x7b\"choices\":[\x7b\"delta\":\x7b\"content\":5\x7d\x7d]\x7d\n"

/-- A frame whose payload is the bare number `5` (membership test raises
`TypeError`). -/
def frameBad : String := "data: 5\n"

/-- The `[DONE]` sentinel frame. -/
def frameDone : String := "data: [DONE]\n"

/-- C6 counterexample: a non-streaming 200 whose body `«a»:1` is valid JSON
without a chat-completion shape is recorded with display body
`json.dumps(parsed, indent=2)` — which differs from the raw body text — not
with the raw body as the claim states. -/
theorem display_body_counterexample :
    ((chatCompletions ⟨["k"], ["m"], true, 1000⟩ ⟨0, 0, []⟩ "\x7b\x7d"
        (fun _ => .reply 200 "\x7b\"a\":1\x7d" []) 0 7).state.sink
      = [⟨⟨0, "\x7b\"model\": \"m\"\x7d"⟩,
          { status_code := 200
            body := .str "\x7b\n  \"a\": 1\n\x7d"
            raw_body := "\x7b\"a\":1\x7d"
            latency_ms := some 7 }⟩])
    ∧ ("\x7b\n  \"a\": 1\n\x7d" : String) ≠ "\x7b\"a\":1\x7d" :=
  ⟨rfl, by decide⟩

/-- C6 (amended): for a non-streaming upstream 200, per the outcome of the
extraction of `choices[0].message.content` (lines 369-378):
* extraction completes with a truthy value — the value is the display body
  (the string itself when it is a string; the raw extracted object when it
  is not), the raw text is the raw body, and the exchange is recorded;
* extraction completes with a falsy value (field absent or empty) — the
  display body is `json.dumps(parsed, indent=2)`, which in general differs
  from the raw text;
* extraction raises (`TypeError`/`KeyError` on payloads like `5` or
  `«choices»:5`, uncaught by the inner `except`) — the attempt becomes an
  unexpected 500 error and no exchange is recorded;
* the body does not parse as JSON — the display body equals the raw body
  text (the exchange is recorded, then the attempt fails 500 per C10). -/
theorem display_body_amended (b : String) (st : ServerState)
    (ts lat maxR : Nat) :
    (∀ j c, parseJson b = some j → chatExtract j = some c →
      c.truthy = true →
      (chatCompletions ⟨["k"], ["m"], true, maxR⟩ st "\x7b\x7d"
          (fun _ => .reply 200 b []) ts lat).state.sink
        = sinkAppendAll maxR st.sink
            [⟨⟨ts, dumpsCompact (.obj (objSet [] "model" (.str "m")))⟩,
              nonStreamingResponse b c lat⟩]
      ∧ (chatCompletions ⟨["k"], ["m"], true, maxR⟩ st "\x7b\x7d"
          (fun _ => .reply 200 b []) ts lat).result = .success false [] j)
    ∧ (∀ j c, parseJson b = some j → chatExtract j = some c →
      c.truthy = false →
      (chatCompletions ⟨["k"], ["m"], true, maxR⟩ st "\x7b\x7d"
          (fun _ => .reply 200 b []) ts lat).state.sink
        = sinkAppendAll maxR st.sink
            [⟨⟨ts, dumpsCompact (.obj (objSet [] "model" (.str "m")))⟩,
              nonStreamingResponse b (.str (dumpsIndent 0 j)) lat⟩]
      ∧ (chatCompletions ⟨["k"], ["m"], true, maxR⟩ st "\x7b\x7d"
          (fun _ => .reply 200 b []) ts lat).result = .success false [] j)
    ∧ (∀ j, parseJson b = some j → chatExtract j = none →
      (chatCompletions ⟨["k"], ["m"], true, maxR⟩ st "\x7b\x7d"
          (fun _ => .reply 200 b []) ts lat).state.sink = st.sink
      ∧ (chatCompletions ⟨["k"], ["m"], true, maxR⟩ st "\x7b\x7d"
          (fun _ => .reply 200 b []) ts lat).result.errStatus? = some 500)
    ∧ (parseJson b = none →
      (chatCompletions ⟨["k"], ["m"], true, maxR⟩ st "\x7b\x7d"
          (fun _ => .reply 200 b []) ts lat).state.sink
        = sinkAppendAll maxR st.sink
            [⟨⟨ts, dumpsCompact (.obj (objSet [] "model" (.str "m")))⟩,
              nonStreamingResponse b (.str b) lat⟩]
      ∧ (chatCompletions ⟨["k"], ["m"], true, maxR⟩ st "\x7b\x7d"
          (fun _ => .reply 200 b []) ts lat).result.errStatus? = some 500) := by
  have hstream : isStreamingOf ([] : List (String × Json)) = false := rfl
  have hcc : chatCompletions ⟨["k"], ["m"], true, maxR⟩ st "\x7b\x7d"
      (fun _ => .reply 200 b []) ts lat
      = finishRequest ⟨["k"], ["m"], true, maxR⟩ st
          (runAttempts
            (attOf ⟨["k"], ["m"], true, maxR⟩ st []
              (fun _ => .reply 200 b []) ts lat)
            (["m"] : List String).length) :=
    chatCompletions_eq _ _ _ _ _ _ _ rfl (by simp)
  refine ⟨?_, ?_, ?_, ?_⟩
  · intro j c hb hex htr
    have hatt : attOf ⟨["k"], ["m"], true, maxR⟩ st []
        (fun _ => .reply 200 b []) ts lat 0
        = .terminalSuccess false [] j
            [⟨⟨ts, dumpsCompact (.obj (objSet [] "model" (.str "m")))⟩,
              nonStreamingResponse b c lat⟩] := by
      unfold attOf attemptOne
      simp [hstream, hb, hex, htr, Nat.mod_one]
    rw [hcc]
    exact ⟨by simp [runAttempts, runGo, hatt, finishRequest],
      by simp [runAttempts, runGo, hatt, finishRequest]⟩
  · intro j c hb hex htr
    have hatt : attOf ⟨["k"], ["m"], true, maxR⟩ st []
        (fun _ => .reply 200 b []) ts lat 0
        = .terminalSuccess false [] j
            [⟨⟨ts, dumpsCompact (.obj (objSet [] "model" (.str "m")))⟩,
              nonStreamingResponse b (.str (dumpsIndent 0 j)) lat⟩] := by
      unfold attOf attemptOne
      simp [hstream, hb, hex, htr, Nat.mod_one]
    rw [hcc]
    exact ⟨by simp [runAttempts, runGo, hatt, finishRequest],
      by simp [runAttempts, runGo, hatt, finishRequest]⟩
  · intro j hb hex
    have hatt : attOf ⟨["k"], ["m"], true, maxR⟩ st []
        (fun _ => .reply 200 b []) ts lat 0
        = .softFail 500
            (unexpectedErrorDetail st.keyIndex 0 "m" "TypeError") [] true := by
      unfold attOf attemptOne
      simp [hstream, hb, hex, Nat.mod_one]
    rw [hcc]
    exact ⟨by simp [runAttempts, runGo, hatt, finishRequest, sinkAppendAll],
      by simp [runAttempts, runGo, hatt, finishRequest,
        HandlerResult.errStatus?]⟩
  · intro hb
    have hatt : attOf ⟨["k"], ["m"], true, maxR⟩ st []
        (fun _ => .reply 200 b []) ts lat 0
        = .softFail 500
            (unexpectedErrorDetail st.keyIndex 0 "m" "JSONDecodeError")
            [⟨⟨ts, dumpsCompact (.obj (objSet [] "model" (.str "m")))⟩,
              nonStreamingResponse b (.str b) lat⟩] true := by
      unfold attOf attemptOne
      simp [hstream, hb, Nat.mod_one]
    rw [hcc]
    exact ⟨by simp [runAttempts, runGo, hatt, finishRequest],
      by simp [runAttempts, runGo, hatt, finishRequest,
        HandlerResult.errStatus?]⟩

/-- C6 amended witness: the four display-body outcomes at concrete bodies —
a chat payload with string content `"hi"` records it; a chat payload whose
content is the number `5` records the raw value `5`; a JSON payload without
content records the 2-space re-serialization; the body `5` (valid JSON,
`TypeError` in the membership test) yields a 500 with nothing recorded. -/
theorem display_body_amended_witness :
    ((chatCompletions ⟨["k"], ["m"], true, 1000⟩ ⟨0, 0, []⟩ "\x7b\x7d"
        (fun _ => .reply 200
          "\x7b\"choices\":[\x7b\"message\":\x7b\"content\":\"hi\"\x7d\x7d]\x7d"
          []) 0 7).state.sink
      = sinkAppendAll 1000 []
          [⟨⟨0, dumpsCompact (.obj (objSet [] "model" (.str "m")))⟩,
            nonStreamingResponse
              "\x7b\"choices\":[\x7b\"message\":\x7b\"content\":\"hi\"\x7d\x7d]\x7d"
              (.str "hi") 7⟩])
    ∧ ((chatCompletions ⟨["k"], ["m"], true, 1000⟩ ⟨0, 0, []⟩ "\x7b\x7d"
        (fun _ => .reply 200
          "\x7b\"choices\":[\x7b\"message\":\x7b\"content\":5\x7d\x7d]\x7d"
          []) 0 7).state.sink
      = sinkAppendAll 1000 []
          [⟨⟨0, dumpsCompact (.obj (objSet [] "model" (.str "m")))⟩,
            nonStreamingResponse
              "\x7b\"choices\":[\x7b\"message\":\x7b\"content\":5\x7d\x7d]\x7d"
              (.num 5) 7⟩])
    ∧ ((chatCompletions ⟨["k"], ["m"], true, 1000⟩ ⟨0, 0, []⟩ "\x7b\x7d"
        (fun _ => .reply 200 "\x7b\"a\":1\x7d" []) 0 7).state.sink
      = sinkAppendAll 1000 []
          [⟨⟨0, dumpsCompact (.obj (objSet [] "model" (.str "m")))⟩,
            nonStreamingResponse "\x7b\"a\":1\x7d"
              (.str (dumpsIndent 0 (.obj [("a", .num 1)]))) 7⟩])
    ∧ ((chatCompletions ⟨["k"], ["m"], true, 1000⟩ ⟨0, 0, []⟩ "\x7b\x7d"
        (fun _ => .reply 200 "5" []) 0 7).state.sink = [])
    ∧ ((chatCompletions ⟨["k"], ["m"], true, 1000⟩ ⟨0, 0, []⟩ "\x7b\x7d"
        (fun _ => .reply 200 "5" []) 0 7).result.errStatus? = some 500) := by
  have h1 := (display_body_amended
    "\x7b\"choices\":[\x7b\"message\":\x7b\"content\":\"hi\"\x7d\x7d]\x7d"
    ⟨0, 0, []⟩ 0 7 1000).1
    (.obj [("choices", .arr [.obj [("message",
      .obj [("content", .str "hi")])]])]) (.str "hi") rfl rfl rfl
  have h2 := (display_body_amended
    "\x7b\"choices\":[\x7b\"message\":\x7b\"content\":5\x7d\x7d]\x7d"
    ⟨0, 0, []⟩ 0 7 1000).1
    (.obj [("choices", .arr [.obj [("message",
      .obj [("content", .num 5)])]])]) (.num 5) rfl rfl rfl
  have h3 := (display_body_amended "\x7b\"a\":1\x7d" ⟨0, 0, []⟩ 0 7 1000).2.1
    (.obj [("a", .num 1)]) (.str "") rfl rfl rfl
  have h4 := (display_body_amended "5" ⟨0, 0, []⟩ 0 7 1000).2.2.1
    (.num 5) rfl rfl
  exact ⟨h1.1, h2.1, h3.1, h4.1, h4.2⟩

/-- One clean generator iteration: when the stream is alive, the chunk does
not raise an uncaught exception, and every accumulated content value is a
string, the chunk is captured, its contents appended, and the stream stays
alive. -/
theorem streamChunk_clean (ss : StreamState) (c : String)
    (hd : ss.dead = false)
    (hc : (chunkScan (splitLines c.data)).2 = false)
    (ha : allStr (ss.extracted ++ (chunkScan (splitLines c.data)).1)
      = true) :
    (streamChunk ss c).rawChunks = ss.rawChunks ++ [c]
    ∧ (streamChunk ss c).extracted
      = ss.extracted ++ (chunkScan (splitLines c.data)).1
    ∧ (streamChunk ss c).dead = false := by
  unfold streamChunk
  simp only [hd, hc, Bool.false_eq_true, if_false]
  by_cases he : ((chunkScan (splitLines c.data)).1).isEmpty
  · simp [he]
  · simp [he, ha]

/-- Over a clean stream, the captured chunks are the delivered chunks and
the accumulator collects every frame's content in order. -/
theorem foldl_streamChunk_clean (chunks : List String) :
    ∀ ss : StreamState, ss.dead = false →
      (∀ c ∈ chunks, (chunkScan (splitLines c.data)).2 = false) →
      allStr (ss.extracted
        ++ chunks.flatMap (fun c => (chunkScan (splitLines c.data)).1))
        = true →
      (chunks.foldl streamChunk ss).rawChunks = ss.rawChunks ++ chunks
      ∧ (chunks.foldl streamChunk ss).extracted
        = ss.extracted
          ++ chunks.flatMap (fun c => (chunkScan (splitLines c.data)).1)
      ∧ (chunks.foldl streamChunk ss).dead = false := by
  induction chunks with
  | nil =>
    intro ss hd _ _
    simp [hd]
  | cons c cs ih =>
    intro ss hd hall hstr
    have hc := hall c (by simp)
    have ha1 : allStr (ss.extracted ++ (chunkScan (splitLines c.data)).1)
        = true := by
      simp only [allStr, List.flatMap_cons, List.all_append,
        Bool.and_eq_true] at hstr ⊢
      tauto
    have hstep := streamChunk_clean ss c hd hc ha1
    have ihs := ih (streamChunk ss c) hstep.2.2
      (fun x hx => hall x (by simp [hx]))
      (by
        rw [hstep.2.1]
        simpa [List.flatMap_cons, List.append_assoc] using hstr)
    refine ⟨?_, ?_, ihs.2.2⟩
    · rw [List.foldl_cons, ihs.1, hstep.1]
      simp
    · rw [List.foldl_cons, ihs.2.1, hstep.2.1]
      simp [List.flatMap_cons, List.append_assoc]

/-- C7 counterexample: a stream that ends after delivering no chunks (for
example an upstream that errors before the first chunk) never runs the
capture in the `finally` block — the condition at line 164 requires
`captured_chunks` to be non-empty — so the record keeps
`streaming_complete=false`, `is_streaming=true`, the placeholder raw body,
and no final notification is sent, contradicting the claim's "whenever the
stream ends". -/
theorem stream_end_counterexample :
    ((streamRun streamingInProgressResponse [] 2 10).resp.streaming_complete
      = false)
    ∧ ((streamRun streamingInProgressResponse [] 2 10).resp.is_streaming
      = true)
    ∧ ((streamRun streamingInProgressResponse [] 2 10).resp.raw_body
      = "[Streaming in progress...]")
    ∧ ((streamRun streamingInProgressResponse [] 2 10).notifs = []) := by
  decide

/-- C7 (amended): whenever the stream ends after at least one chunk was
received, provided no frame raises an uncaught exception and every
extracted content value is a string — always the case for well-formed SSE
chat deltas — the record ends with `streaming_complete=true`,
`is_streaming=false`, raw body the concatenation of all received chunk
text, display body the accumulated content (or the raw text when nothing
was extracted), latency computed from the original request timestamp, and a
final streaming-update notification.  When some content value is a truthy
non-string, the `"".join` raises: the stream dies at that chunk, and the
`finally` block assigns only the raw body (line 167) before the `TypeError`
at line 169 is caught at line 204, leaving `streaming_complete=false` and
sending no final notification.  A frame raising a shape `TypeError` (such
as `data: 5`) ends the stream at that chunk: later chunks are never
captured, and the `finally` block completes the record from the truncated
capture. -/
theorem stream_end_amended (resp0 : HttpResponse) (chunks : List String)
    (ts endT : Nat) (hne : chunks ≠ [])
    (hclean : ∀ c ∈ chunks, (chunkScan (splitLines c.data)).2 = false)
    (hstr : allStr
      (chunks.flatMap fun c => (chunkScan (splitLines c.data)).1) = true) :
    (((streamRun resp0 chunks ts endT).resp.streaming_complete = true)
      ∧ ((streamRun resp0 chunks ts endT).resp.is_streaming = false)
      ∧ ((streamRun resp0 chunks ts endT).resp.raw_body
        = String.join chunks)
      ∧ ((streamRun resp0 chunks ts endT).resp.body
        = .str (streamRun resp0 chunks ts endT).resp.streaming_content)
      ∧ ((streamRun resp0 chunks ts endT).resp.streaming_content
        = (if (chunks.flatMap
              fun c => (chunkScan (splitLines c.data)).1).isEmpty
           then String.join chunks
           else joinStrs
             (chunks.flatMap fun c => (chunkScan (splitLines c.data)).1)))
      ∧ ((streamRun resp0 chunks ts endT).resp.latency_ms
        = some (endT - ts))
      ∧ ((streamRun resp0 chunks ts endT).notifs.getLast?
        = some ⟨(streamRun resp0 chunks ts endT).resp.streaming_content,
            true⟩))
    ∧ (((streamRun streamingInProgressResponse [frameHe, frameNum, frameLlo]
          2 10).resp.streaming_complete = false)
      ∧ ((streamRun streamingInProgressResponse [frameHe, frameNum, frameLlo]
          2 10).resp.raw_body = frameHe ++ frameNum)
      ∧ ((streamRun streamingInProgressResponse [frameHe, frameNum, frameLlo]
          2 10).resp.body = .str "[Streaming in progress...]")
      ∧ ((streamRun streamingInProgressResponse [frameHe, frameNum, frameLlo]
          2 10).notifs = [⟨"He", false⟩]))
    ∧ (((streamRun streamingInProgressResponse [frameBad, frameHe]
          2 10).resp.streaming_complete = true)
      ∧ ((streamRun streamingInProgressResponse [frameBad, frameHe]
          2 10).resp.raw_body = frameBad)
      ∧ ((streamRun streamingInProgressResponse [frameBad, frameHe]
          2 10).notifs = [⟨frameBad, true⟩])) := by
  refine ⟨?_, ⟨?_, ?_, ?_, ?_⟩, ⟨?_, ?_, ?_⟩⟩
  case _ =>
    have hF := foldl_streamChunk_clean chunks ⟨resp0, [], [], [], false⟩ rfl
      hclean (by simpa using hstr)
    have hie : chunks.isEmpty = false := by
      cases chunks with
      | nil => exact absurd rfl hne
      | cons a as => rfl
    unfold streamRun streamFinalize
    rw [hF.1, hF.2.1]
    simp only [List.nil_append, hie, Bool.false_eq_true, if_false]
    by_cases hemp : (chunks.flatMap
        fun c => (chunkScan (splitLines c.data)).1).isEmpty
    · have hnil : (chunks.flatMap
          fun c => (chunkScan (splitLines c.data)).1) = [] := by
        simpa using hemp
      rw [hnil]
      simp [List.getLast?_concat]
    · simp only [hemp, Bool.false_eq_true, if_false, hstr, if_true]
      simp [hemp, hstr, List.getLast?_concat]
  case _ => decide
  case _ => decide
  case _ => rfl
  case _ => decide
  case _ => decide
  case _ => decide
  case _ => decide

/-- C7 amended witness: a clean two-chunk stream (a `"He"` delta then the
`[DONE]` sentinel) completes with display body `"He"` and a final latency. -/
theorem stream_end_amended_witness :
    ((streamRun streamingInProgressResponse [frameHe, frameDone]
      2 10).resp.streaming_complete = true)
    ∧ ((streamRun streamingInProgressResponse [frameHe, frameDone]
      2 10).resp.streaming_content = "He")
    ∧ ((streamRun streamingInProgressResponse [frameHe, frameDone]
      2 10).resp.latency_ms = some 8) := by
  have h := stream_end_amended streamingInProgressResponse
    [frameHe, frameDone] 2 10 (by decide) (by decide) (by decide)
  refine ⟨h.1.1, ?_, h.1.2.2.2.2.2.1⟩
  rw [h.1.2.2.2.2.1]
  decide

/-- C8: feeding the three SSE frames of the claim yields a final display
body `"Hello"` with `streaming_complete=true`, and the first intermediate
notification carries accumulated content `"He"` with
`streaming_complete=false`. -/
theorem streaming_accumulation :
    ((streamRun streamingInProgressResponse [frameHe, frameLlo, frameDone]
        2 10).resp.body = .str "Hello")
    ∧ ((streamRun streamingInProgressResponse [frameHe, frameLlo, frameDone]
        2 10).resp.streaming_complete = true)
    ∧ (⟨"He", false⟩ ∈ (streamRun streamingInProgressResponse
        [frameHe, frameLlo, frameDone] 2 10).notifs) :=
  ⟨rfl, by decide, by decide⟩

/-- A streaming attempt whose upstream call is not a 200 reply is a soft
failure that records no exchange. -/
theorem attOf_streaming_soft (cfg : ProxyConfig) (st : ServerState)
    (kvs : List (String × Json)) (oracle : Nat → UpstreamResult)
    (ts lat i : Nat)
    (hs : isStreamingOf kvs = true)
    (h200 : (oracle i).is200 = false) :
    (attOf cfg st kvs oracle ts lat i).isTerminal = false
    ∧ (attOf cfg st kvs oracle ts lat i).newEx = [] := by
  unfold attOf attemptOne
  cases ho : oracle i with
  | reply status body chunks =>
    rw [ho] at h200
    have hst : ¬(status = 200) := by
      intro h
      subst h
      simp [UpstreamResult.is200] at h200
    by_cases h429 : status = 429 <;>
      simp [hs, hst, h429, AttemptOutcome.isTerminal, AttemptOutcome.newEx]
  | transportError msg =>
    simp [AttemptOutcome.isTerminal, AttemptOutcome.newEx]
  | unexpectedError msg =>
    simp [AttemptOutcome.isTerminal, AttemptOutcome.newEx]

/-- C3 counterexample: with `log_requests` disabled, a streaming request
whose upstream attempt returns 200 is not a terminal success and records
nothing — building the `StreamingResponse` at line 321 reads the
never-assigned local `intercepted` (only bound under `if
self.config.log_requests` at line 306), and the resulting `NameError` is
caught by the generic handler at line 466 as an unexpected error (500 on
the last model). -/
theorem streaming_record_counterexample :
    ((chatCompletions ⟨["k"], ["m"], false, 1000⟩ ⟨0, 0, []⟩
        "\x7b\"stream\": true\x7d" (fun _ => .reply 200 "" ["x"]) 0
        0).result.errStatus? = some 500)
    ∧ ((chatCompletions ⟨["k"], ["m"], false, 1000⟩ ⟨0, 0, []⟩
        "\x7b\"stream\": true\x7d" (fun _ => .reply 200 "" ["x"]) 0
        0).result.isSuccess = false)
    ∧ ((chatCompletions ⟨["k"], ["m"], false, 1000⟩ ⟨0, 0, []⟩
        "\x7b\"stream\": true\x7d" (fun _ => .reply 200 "" ["x"]) 0
        0).state.sink = []) :=
  ⟨by decide, by decide, rfl⟩

/-- C3 (amended): with `config.log_requests` enabled (the default), a
streaming request whose j-th attempt returns status 200 (after j non-200
attempts) is a terminal success: the handler records the exchange — with
`is_streaming=true`, `streaming_complete=false` and the in-progress
placeholder body, i.e. before the body drains — fires `on_intercept` for
it, returns the streaming pass-through response wired to the not yet
consumed chunk stream, and makes no further upstream call. -/
theorem streaming_record_amended (cfg : ProxyConfig) (st : ServerState)
    (inbound : String) (kvs : List (String × Json))
    (oracle : Nat → UpstreamResult) (ts lat j : Nat) (body : String)
    (chunks : List String)
    (hparse : parseJson inbound = some (.obj kvs))
    (hstream : isStreamingOf kvs = true)
    (hkeys : cfg.openrouter_api_keys.length ≠ 0)
    (hlog : cfg.log_requests = true)
    (hj : j < cfg.openrouter_api_models.length)
    (horacle : oracle j = .reply 200 body chunks)
    (hpre : ∀ i, i < j → (oracle i).is200 = false) :
    ((chatCompletions cfg st inbound oracle ts lat).result
      = .success true chunks .null)
    ∧ ((chatCompletions cfg st inbound oracle ts lat).calls = j + 1)
    ∧ ((chatCompletions cfg st inbound oracle ts lat).state.sink
      = sinkAppendAll cfg.max_requests st.sink
          [⟨⟨ts, dumpsCompact (.obj (objSet kvs "model" (.str
              (cfg.openrouter_api_models.getD
                ((st.modelIndex + j) % cfg.openrouter_api_models.length)
                ""))))⟩,
            streamingInProgressResponse⟩])
    ∧ streamingInProgressResponse.is_streaming = true
    ∧ streamingInProgressResponse.streaming_complete = false := by
  rw [chatCompletions_eq cfg st inbound kvs oracle ts lat hparse hkeys]
  unfold runAttempts
  have hterm : attOf cfg st kvs oracle ts lat j
      = .terminalSuccess true chunks .null
          [⟨⟨ts, dumpsCompact (.obj (objSet kvs "model" (.str
              (cfg.openrouter_api_models.getD
                ((st.modelIndex + j) % cfg.openrouter_api_models.length)
                ""))))⟩,
            streamingInProgressResponse⟩] := by
    unfold attOf attemptOne
    rw [horacle]
    simp [hstream, hlog]
  have hsplit : List.range' 0 cfg.openrouter_api_models.length
      = List.range' 0 j
        ++ j :: List.range' (j + 1)
            (cfg.openrouter_api_models.length - j - 1) := by
    have h1 : (cfg.openrouter_api_models.length - j) + j
        = cfg.openrouter_api_models.length := by omega
    have h2 : cfg.openrouter_api_models.length - j
        = (cfg.openrouter_api_models.length - j - 1) + 1 := by omega
    calc List.range' 0 cfg.openrouter_api_models.length
        = List.range' 0
            ((cfg.openrouter_api_models.length - j) + j) := by rw [h1]
      _ = List.range' 0 j ++ List.range' (0 + j)
            (cfg.openrouter_api_models.length - j) := by
          rw [List.range'_append_1]
      _ = List.range' 0 j
          ++ j :: List.range' (j + 1)
              (cfg.openrouter_api_models.length - j - 1) := by
          rw [Nat.zero_add]
          conv_lhs => rw [h2, List.range'_succ]
  rw [hsplit,
    runGo_first_terminal (attOf cfg st kvs oracle ts lat) (List.range' 0 j) j
      (List.range' (j + 1) (cfg.openrouter_api_models.length - j - 1)) true
      chunks .null _ 500 "All API models failed." [] 0
      (by
        intro i hi
        rw [List.mem_range'_1] at hi
        exact attOf_streaming_soft cfg st kvs oracle ts lat i hstream
          (hpre i (by omega)))
      hterm]
  unfold finishRequest
  refine ⟨rfl, by simp, by simp [sinkAppendAll], rfl, rfl⟩

/-- C3 amended witness: two models, the first rate-limited and the second
succeeding with a streaming 200 — the handler records the in-progress
exchange, returns the stream of the second model, and makes exactly two
upstream calls. -/
theorem streaming_record_amended_witness :
    ((chatCompletions ⟨["k"], ["m0", "m1"], true, 1000⟩ ⟨0, 0, []⟩
        "\x7b\"stream\": true\x7d"
        (fun i => if i = 0 then .reply 429 "slow" []
          else .reply 200 "" ["c1"]) 5 0).result
      = .success true ["c1"] .null)
    ∧ ((chatCompletions ⟨["k"], ["m0", "m1"], true, 1000⟩ ⟨0, 0, []⟩
        "\x7b\"stream\": true\x7d"
        (fun i => if i = 0 then .reply 429 "slow" []
          else .reply 200 "" ["c1"]) 5 0).calls = 2) := by
  have h := streaming_record_amended ⟨["k"], ["m0", "m1"], true, 1000⟩
    ⟨0, 0, []⟩ "\x7b\"stream\": true\x7d" [("stream", .bool true)]
    (fun i => if i = 0 then .reply 429 "slow" [] else .reply 200 "" ["c1"])
    5 0 1 "" ["c1"] rfl rfl (by decide) rfl (by decide) (by decide)
    (by
      intro i hi
      interval_cases i
      decide)
  exact ⟨h.1, h.2.1⟩

/-- A non-streaming attempt answered 200 with a body that does not parse as
JSON is a raising soft failure with status 500 that still records exactly
one exchange. -/
theorem attOf_badjson (cfg : ProxyConfig) (st : ServerState)
    (kvs : List (String × Json)) (oracle : Nat → UpstreamResult)
    (ts lat i : Nat) (b : String)
    (hns : isStreamingOf kvs = false)
    (hlog : cfg.log_requests = true)
    (ho : oracle i = .reply 200 b [])
    (hb : parseJson b = none) :
    (attOf cfg st kvs oracle ts lat i).isTerminal = false
    ∧ (attOf cfg st kvs oracle ts lat i).raising = true
    ∧ (attOf cfg st kvs oracle ts lat i).failStatus = 500
    ∧ (attOf cfg st kvs oracle ts lat i).newEx.length = 1 := by
  unfold attOf attemptOne
  rw [ho]
  simp [hns, hlog, hb, AttemptOutcome.isTerminal, AttemptOutcome.raising,
    AttemptOutcome.failStatus, AttemptOutcome.newEx]

/-- As long as the deque stays below capacity, each push grows it by one. -/
theorem sinkAppendAll_length (maxR : Nat) :
    ∀ (newEx sink : List InterceptedRequest),
      sink.length + newEx.length ≤ maxR →
      (sinkAppendAll maxR sink newEx).length
        = sink.length + newEx.length := by
  intro newEx
  induction newEx with
  | nil =>
    intro sink _
    simp [sinkAppendAll]
  | cons e es ih =>
    intro sink h
    have hpush : (sinkPush maxR sink e).length = sink.length + 1 := by
      unfold sinkPush
      simp only [List.length_drop, List.length_append, List.length_cons,
        List.length_nil]
      simp at h
      omega
    unfold sinkAppendAll at ih ⊢
    rw [List.foldl_cons,
      ih (sinkPush maxR sink e) (by rw [hpush]; simp at h ⊢; omega), hpush]
    simp
    omega

/-- When every index in the list records exactly one exchange, the loop's
flattened record list has one entry per index. -/
theorem flatMap_length_one (f : Nat → List InterceptedRequest) :
    ∀ l : List Nat, (∀ i ∈ l, (f i).length = 1) →
      (l.flatMap f).length = l.length := by
  intro l
  induction l with
  | nil => intro _; simp
  | cons a l ih =>
    intro h
    simp only [List.flatMap_cons, List.length_append, List.length_cons,
      h a (by simp), ih (fun i hi => h i (by simp [hi]))]
    omega

/-- C10: if every model's attempt returns a 200 whose body is not valid
JSON (with recording enabled, non-streaming), the handler records one
exchange per attempt — it appends the exchange and fires `on_intercept`
before re-parsing the body for the client response — then classifies each
attempt as an unexpected error and continues, finally surfacing a 500: a
single inbound request records N exchanges and an upstream 200 surfaces to
the caller as a 500 failure. -/
theorem recorded_200_surfaces_500 (cfg : ProxyConfig) (st : ServerState)
    (inbound : String) (kvs : List (String × Json))
    (oracle : Nat → UpstreamResult) (ts lat : Nat) (b : Nat → String)
    (hparse : parseJson inbound = some (.obj kvs))
    (hns : isStreamingOf kvs = false)
    (hkeys : cfg.openrouter_api_keys.length ≠ 0)
    (hlog : cfg.log_requests = true)
    (hN : 0 < cfg.openrouter_api_models.length)
    (hcap : st.sink.length + cfg.openrouter_api_models.length
      ≤ cfg.max_requests)
    (hall : ∀ i < cfg.openrouter_api_models.length,
      oracle i = .reply 200 (b i) [] ∧ parseJson (b i) = none) :
    ((chatCompletions cfg st inbound oracle ts lat).result.errStatus?
      = some 500)
    ∧ ((chatCompletions cfg st inbound oracle ts lat).calls
      = cfg.openrouter_api_models.length)
    ∧ ((chatCompletions cfg st inbound oracle ts lat).state.sink.length
      = st.sink.length + cfg.openrouter_api_models.length) := by
  have hbad : ∀ i < cfg.openrouter_api_models.length,
      (attOf cfg st kvs oracle ts lat i).isTerminal = false
      ∧ (attOf cfg st kvs oracle ts lat i).raising = true
      ∧ (attOf cfg st kvs oracle ts lat i).failStatus = 500
      ∧ (attOf cfg st kvs oracle ts lat i).newEx.length = 1 :=
    fun i hi => attOf_badjson cfg st kvs oracle ts lat i (b i) hns hlog
      (hall i hi).1 (hall i hi).2
  rw [chatCompletions_eq cfg st inbound kvs oracle ts lat hparse hkeys]
  unfold runAttempts
  have hsplit : List.range' 0 cfg.openrouter_api_models.length
      = List.range' 0 (cfg.openrouter_api_models.length - 1)
        ++ [cfg.openrouter_api_models.length - 1] := by
    have h1 : cfg.openrouter_api_models.length
        = (cfg.openrouter_api_models.length - 1) + 1 := by omega
    rw [h1, List.range'_1_concat]
    simp
  have hmem : ∀ j, j ∈ List.range' 0 (cfg.openrouter_api_models.length - 1)
      ++ [cfg.openrouter_api_models.length - 1] →
      j < cfg.openrouter_api_models.length := by
    intro j hj
    rcases List.mem_append.mp hj with h | h
    · rw [List.mem_range'_1] at h
      omega
    · simp at h
      omega
  rw [hsplit,
    runGo_all_soft (attOf cfg st kvs oracle ts lat)
      (List.range' 0 (cfg.openrouter_api_models.length - 1))
      (cfg.openrouter_api_models.length - 1) 500 "All API models failed." []
      0 (fun j hj => (hbad j (hmem j hj)).1)]
  rw [(hbad (cfg.openrouter_api_models.length - 1) (by omega)).2.1,
    if_pos rfl]
  unfold finishRequest
  have hflat : ((List.range' 0 (cfg.openrouter_api_models.length - 1)
        ++ [cfg.openrouter_api_models.length - 1]).flatMap
          (fun j => (attOf cfg st kvs oracle ts lat j).newEx)).length
      = cfg.openrouter_api_models.length := by
    rw [flatMap_length_one (fun j => (attOf cfg st kvs oracle ts lat j).newEx)
      _ (fun i hi => (hbad i (hmem i hi)).2.2.2)]
    simp
    omega
  dsimp only
  refine ⟨?_, ?_, ?_⟩
  · simp [HandlerResult.errStatus?,
      (hbad (cfg.openrouter_api_models.length - 1) (by omega)).2.2.1]
  · simp [List.length_range']
    omega
  · simp only [List.nil_append]
    rw [sinkAppendAll_length cfg.max_requests _ st.sink
      (by rw [hflat]; exact hcap), hflat]

/-- C10 witness: two models both answering 200 with the non-JSON body
`oops` — the request records two exchanges, makes two upstream calls, and
fails with 500. -/
theorem recorded_200_surfaces_500_witness :
    ((chatCompletions ⟨["k"], ["m0", "m1"], true, 1000⟩ ⟨0, 0, []⟩ "\x7b\x7d"
        (fun _ => .reply 200 "oops" []) 0 0).result.errStatus? = some 500)
    ∧ ((chatCompletions ⟨["k"], ["m0", "m1"], true, 1000⟩ ⟨0, 0, []⟩
        "\x7b\x7d" (fun _ => .reply 200 "oops" []) 0 0).calls = 2)
    ∧ ((chatCompletions ⟨["k"], ["m0", "m1"], true, 1000⟩ ⟨0, 0, []⟩
        "\x7b\x7d" (fun _ => .reply 200 "oops" []) 0 0).state.sink.length
      = 2) := by
  have h := recorded_200_surfaces_500 ⟨["k"], ["m0", "m1"], true, 1000⟩
    ⟨0, 0, []⟩ "\x7b\x7d" [] (fun _ => .reply 200 "oops" []) 0 0
    (fun _ => "oops") rfl rfl (by decide) rfl (by decide) (by decide)
    (fun i _ => ⟨rfl, rfl⟩)
  exact ⟨h.1, h.2.1, by simpa using h.2.2⟩

end OpenRouterProxy
